import Mathlib

/-
  Verification development for the weather-bot signal and paper-trading engine.

  The definitions below are shallow embeddings of the Python source:
    - bot.py        (monolithic live bot: its own analyze_gaps and email filter)
    - analysis.py   (module copy of the gap analysis)
    - alerts.py     (module copy of the email filter, paper-trade filter)
    - paper_trading.py (paper position entry and resolution)
    - resolve.py    (historical scorer: fetch_market_result, PnL)
    - observations.py  (running high and low trackers)
    - config.py     (MIN_GAP_TO_SHOW)

  Temperatures are embedded as rationals, integer quantities as Int, and
  Python dict rows as structures. Fallible paths return Option.
-/

namespace WeatherBot

/-- A Gap Result row, as built by analyze_gaps in analysis.py and bot.py
    (the fields consumed by the filters and by paper trading). -/
structure GapResult where
  ticker : String
  series_type : String
  bucket_type : String
  bucket_label : String
  floor : Option Int
  cap : Option Int
  kalshi_prob : Int
  nws_prob : Int
  gap : Int
  edge : String
  confidence : String
  was_settled : Bool
  std_dev_used : Rat
  time_decay_multiplier : Rat
  forecast_temp : Int
  hourly_adjusted : Bool
deriving DecidableEq

/-- The cross-model summary built by analysis.py _get_model_data
    (the fields consumed by the filters and by paper trading). -/
structure ModelData where
  spread : Option Int
  consensus : Option Int
  has_enough_data : Bool
deriving DecidableEq

/-- analysis.py line 393 and bot.py line 1527: the near-resolution flag
    was_settled is true when the quoted price is above 90 or below 10. -/
def wasSettled (kalshi_prob : Int) : Bool :=
  decide (kalshi_prob > 90 ∨ kalshi_prob < 10)

/-- bot.py lines 1584 to 1614: _apply_email_filters, the four-rule quality
    gate at the live alerting call site. Rule 3 uses a spread cutoff of 4. -/
def botApplyEmailFilters (g : GapResult) (md : ModelData) : Bool :=
  if g.was_settled then false
  else if |g.gap| < 15 then false
  else if (match md.spread with | some s => decide (s ≥ 4) | none => false) then false
  else
    match md.consensus with
    | none => true
    | some c =>
      if g.bucket_type == "FLOOR" && (match g.floor with | some fl => decide (c < fl - 5) | none => false) then false
      else if g.bucket_type == "CAP" && (match g.cap with | some cp => decide (c > cp + 5) | none => false) then false
      else if g.bucket_type == "RANGE" && (match g.floor with | some fl => decide (c < fl - 5) | none => false) then false
      else if g.bucket_type == "RANGE" && (match g.cap with | some cp => decide (c > cp + 5) | none => false) then false
      else true

/-- alerts.py lines 43 to 72: _apply_email_filters, the module copy of the
    email quality gate. Rule 3 uses a spread cutoff of 8. -/
def alertsApplyEmailFilters (g : GapResult) (md : ModelData) : Bool :=
  if g.was_settled then false
  else if |g.gap| < 15 then false
  else if (match md.spread with | some s => decide (s ≥ 8) | none => false) then false
  else
    match md.consensus with
    | none => true
    | some c =>
      if g.bucket_type == "FLOOR" && (match g.floor with | some fl => decide (c < fl - 5) | none => false) then false
      else if g.bucket_type == "CAP" && (match g.cap with | some cp => decide (c > cp + 5) | none => false) then false
      else if g.bucket_type == "RANGE" && (match g.floor with | some fl => decide (c < fl - 5) | none => false) then false
      else if g.bucket_type == "RANGE" && (match g.cap with | some cp => decide (c > cp + 5) | none => false) then false
      else true

/-- alerts.py lines 86 to 115: _passes_paper_trade_filters, the quality gate
    at the paper-trade entry call site. Rule 3 uses a spread cutoff of 8. -/
def passesPaperTradeFilters (g : GapResult) (md : ModelData) : Bool :=
  if g.was_settled then false
  else if |g.gap| < 15 then false
  else if (match md.spread with | some s => decide (s ≥ 8) | none => false) then false
  else
    match md.consensus with
    | none => true
    | some c =>
      if g.bucket_type == "FLOOR" && (match g.floor with | some fl => decide (c < fl - 5) | none => false) then false
      else if g.bucket_type == "CAP" && (match g.cap with | some cp => decide (c > cp + 5) | none => false) then false
      else if g.bucket_type == "RANGE" && (match g.floor with | some fl => decide (c < fl - 5) | none => false) then false
      else if g.bucket_type == "RANGE" && (match g.cap with | some cp => decide (c > cp + 5) | none => false) then false
      else true

/-- config.py line 236 (and bot.py line 255): the minimum absolute gap a
    market needs in order to be kept in the analysis results. -/
def MIN_GAP_TO_SHOW : Int := 0

/-- analysis.py lines 381 to 386 (step 5 of analyze_gaps): compute the gap
    from the rounded model probability and the quoted price, assign the
    direction, and drop the market when the absolute gap is below
    MIN_GAP_TO_SHOW. Returns none for a dropped market. -/
def gapEdgeStep (nws_prob kalshi_prob : Int) : Option (Int × String) :=
  let gap := nws_prob - kalshi_prob
  let edge := if gap > 0 then "BUY YES" else "BUY NO"
  if |gap| < MIN_GAP_TO_SHOW then none
  else some (gap, edge)

/-- bot.py lines 1515 to 1520: the live copy of step 5, line-identical to
    the analysis.py copy. -/
def botGapEdgeStep (nws_prob kalshi_prob : Int) : Option (Int × String) :=
  let gap := nws_prob - kalshi_prob
  let edge := if gap > 0 then "BUY YES" else "BUY NO"
  if |gap| < MIN_GAP_TO_SHOW then none
  else some (gap, edge)

/-- paper_trading.py lines 123 to 136 (resolve_paper_trades, per-position
    pure core): given the result string fetched for the ticker, either keep
    the position open (none, result not yes or no) or resolve it with the
    PnL in cents (some pnl). -/
def resolvePaperStep (result : String) (direction : String) (entry_price : Int) : Option Int :=
  if !(result == "yes" || result == "no") then none
  else if direction == "BUY YES" then
    some (if result == "yes" then 100 - entry_price else -entry_price)
  else
    some (if result == "no" then entry_price else -(100 - entry_price))

/-- resolve.py lines 96 to 105 (fetch_market_result, pure core): the API
    payload result and is_provisional fields are mapped to (some result,
    provisional) only when the result is yes or no; every other result
    string (empty, void, voided) yields (none, false). -/
def fetchMarketResult (result : String) (is_provisional : Bool) : Option String × Bool :=
  if result == "yes" || result == "no" then (some result, is_provisional)
  else (none, false)

/-- resolve.py lines 507 to 512 (run_resolution_check, PnL computation):
    void results are mapped to 0, otherwise the BUY YES and BUY NO win and
    loss formulas apply. Entry price is a float in the source; embedded as
    a rational. -/
def resolvePnl (result : String) (direction : String) (entry_price : Rat) : Rat :=
  if result == "void" || result == "voided" then 0
  else if direction == "BUY YES" then
    (if result == "yes" then 100 - entry_price else -entry_price)
  else
    (if result == "no" then entry_price else -(100 - entry_price))

/-- analysis.py lines 141 and 292 to 293: the cross-model spread of a list
    of model temperatures, max minus min, defined only when the list is
    non-empty (the callers additionally require at least two values). -/
def spreadOf : List Int → Option Int
  | [] => none
  | t :: ts => some ((ts.foldl max t) - (ts.foldl min t))

/-- analysis.py lines 280 to 297 and bot.py lines 1421 to 1438 (step 3 of
    analyze_gaps): the baseline dispersion. With at least two valid model
    temperatures, spread below 1 gives 2.0, spread above 3 gives 4.0,
    otherwise the baseline 5 / 2 stays. -/
def baselineSigma (validTemps : List Int) : Rat :=
  if validTemps.length ≥ 2 then
    match spreadOf validTemps with
    | some s => if s < 1 then 2 else if s > 3 then 4 else 5 / 2
    | none => 5 / 2
  else 5 / 2

/-- analysis.py lines 312 to 318 and bot.py lines 1453 to 1459: the
    time-decay schedule for today HIGH markets, identical in both copies. -/
def highDecaySchedule (lstHour : Nat) : Rat :=
  if lstHour ≥ 17 then 3 / 10
  else if lstHour ≥ 14 then 1 / 2
  else if lstHour ≥ 10 then 3 / 4
  else 1

/-- analysis.py lines 327 to 337: the time-decay schedule for today LOW
    markets in the analysis module copy, with the evening widen-back branch
    (hour at least 18 goes back to full uncertainty). -/
def lowDecayScheduleAnalysis (lstHour : Nat) : Rat :=
  if lstHour ≥ 18 then 1
  else if lstHour ≥ 12 then 3 / 10
  else if lstHour ≥ 8 then 1 / 2
  else if lstHour ≥ 4 then 3 / 4
  else 1

/-- bot.py lines 1465 to 1471: the time-decay schedule for today LOW
    markets in the live bot copy. There is no hour-18 widen-back branch. -/
def lowDecayScheduleBot (lstHour : Nat) : Rat :=
  if lstHour ≥ 12 then 3 / 10
  else if lstHour ≥ 8 then 1 / 2
  else if lstHour ≥ 4 then 3 / 4
  else 1

/-- analysis.py lines 307 to 338 (step 3b): the time_decay_multiplier value
    recorded in the Gap Result. It differs from 1 only for today markets
    with a running observation present. -/
def timeDecayMultiplierAnalysis (dateLabel seriesType : String)
    (observedRunning : Option Int) (lstHour : Nat) : Rat :=
  if dateLabel == "today" && seriesType == "HIGH" && observedRunning.isSome then
    highDecaySchedule lstHour
  else if dateLabel == "today" && seriesType == "LOW" && observedRunning.isSome then
    lowDecayScheduleAnalysis lstHour
  else 1

/-- bot.py lines 1448 to 1472 (step 3b of the live copy): the recorded
    time_decay_multiplier. Differs from the analysis module only through
    the LOW schedule. -/
def timeDecayMultiplierBot (dateLabel seriesType : String)
    (observedRunning : Option Int) (lstHour : Nat) : Rat :=
  if dateLabel == "today" && seriesType == "HIGH" && observedRunning.isSome then
    highDecaySchedule lstHour
  else if dateLabel == "today" && seriesType == "LOW" && observedRunning.isSome then
    lowDecayScheduleBot lstHour
  else 1

/-- analysis.py lines 309 to 338: sigma after step 3b. When one of the two
    decay branches fires, sigma is multiplied by the schedule value and
    clamped below by 1; otherwise it is left unchanged. -/
def sigmaAfterDecayAnalysis (validTemps : List Int) (dateLabel seriesType : String)
    (observedRunning : Option Int) (lstHour : Nat) : Rat :=
  if dateLabel == "today" && seriesType == "HIGH" && observedRunning.isSome then
    max (baselineSigma validTemps * highDecaySchedule lstHour) 1
  else if dateLabel == "today" && seriesType == "LOW" && observedRunning.isSome then
    max (baselineSigma validTemps * lowDecayScheduleAnalysis lstHour) 1
  else baselineSigma validTemps

/-- bot.py lines 1450 to 1472: sigma after step 3b in the live copy. -/
def sigmaAfterDecayBot (validTemps : List Int) (dateLabel seriesType : String)
    (observedRunning : Option Int) (lstHour : Nat) : Rat :=
  if dateLabel == "today" && seriesType == "HIGH" && observedRunning.isSome then
    max (baselineSigma validTemps * highDecaySchedule lstHour) 1
  else if dateLabel == "today" && seriesType == "LOW" && observedRunning.isSome then
    max (baselineSigma validTemps * lowDecayScheduleBot lstHour) 1
  else baselineSigma validTemps

/-- analysis.py lines 350 to 369 and bot.py lines 1484 to 1503 (step 3c):
    whether the hourly corroboration condition fires. It needs a today
    market, hourly data, a running observation, and a remaining-hours
    forecast that does not beat the observed extreme. -/
def hourlyCorroborates (dateLabel : String) (hasHourly : Bool) (seriesType : String)
    (observedRunning : Option Int) (remaining : Option Int) : Bool :=
  dateLabel == "today" && hasHourly &&
    (if seriesType == "HIGH" && observedRunning.isSome then
       match remaining, observedRunning with
       | some r, some o => decide (r < o)
       | _, _ => false
     else if seriesType == "LOW" && observedRunning.isSome then
       match remaining, observedRunning with
       | some r, some o => decide (r > o)
       | _, _ => false
     else false)

/-- analysis.py lines 280 to 369 (steps 3, 3b, 3c): the final std_dev_used
    recorded in the Gap Result by the analysis module copy. -/
def stdDevUsedAnalysis (validTemps : List Int) (dateLabel seriesType : String)
    (observedRunning : Option Int) (lstHour : Nat)
    (hasHourly : Bool) (remaining : Option Int) : Rat :=
  if hourlyCorroborates dateLabel hasHourly seriesType observedRunning remaining then
    max (sigmaAfterDecayAnalysis validTemps dateLabel seriesType observedRunning lstHour * 7 / 10) 1
  else sigmaAfterDecayAnalysis validTemps dateLabel seriesType observedRunning lstHour

/-- bot.py lines 1421 to 1503 (steps 3, 3b, 3c): the final std_dev_used
    recorded in the Gap Result by the live bot copy. -/
def stdDevUsedBot (validTemps : List Int) (dateLabel seriesType : String)
    (observedRunning : Option Int) (lstHour : Nat)
    (hasHourly : Bool) (remaining : Option Int) : Rat :=
  if hourlyCorroborates dateLabel hasHourly seriesType observedRunning remaining then
    max (sigmaAfterDecayBot validTemps dateLabel seriesType observedRunning lstHour * 7 / 10) 1
  else sigmaAfterDecayBot validTemps dateLabel seriesType observedRunning lstHour

/-- One NWS observation feature, reduced to the fields observations.py
    reads: the per-reading temperature value (properties.temperature.value,
    none when absent), whether its unitCode names degF (the source tests
    substring containment on the unitCode string), and the rolling DSM
    field (properties.maxTemperatureLast24Hours.value). -/
structure ObsReading where
  temperature : Option Rat
  unit_degF : Bool
  dsm : Option Rat
deriving DecidableEq

/-- observations.py lines 157 to 162 and 333 to 336: normalise the raw
    reading to Celsius, converting when the unit is Fahrenheit. -/
def toCelsius (raw : Rat) (isDegF : Bool) : Rat :=
  if isDegF then (raw - 32) * 5 / 9 else raw

/-- The rounding used by the Python builtin round: round half to even. -/
def pyRound (q : Rat) : Int :=
  let f := ⌊q⌋
  let frac := q - f
  if frac < 1 / 2 then f
  else if 1 / 2 < frac then f + 1
  else if f % 2 = 0 then f else f + 1

/-- observations.py lines 164 to 182: the conservative and probable values
    of one reading for the HIGH tracker. For five-minute ASOS stations the
    official value floors the Fahrenheit conversion and the probable value
    allows 1 / 20 C of stored precision; for every other station type the
    whole-degree reading is recovered with round and both agree. -/
def highConvert (stationType : String) (celsius : Rat) : Int × Int :=
  if stationType == "5-minute" then
    (⌊celsius * 9 / 5 + 32⌋, ⌊(celsius + 1 / 20) * 9 / 5 + 32⌋)
  else
    (pyRound (celsius * 9 / 5 + 32), pyRound (celsius * 9 / 5 + 32))

/-- observations.py lines 338 to 353: the conservative and probable values
    of one reading for the LOW tracker (the probable bound subtracts the
    1 / 20 C precision allowance). -/
def lowConvert (stationType : String) (celsius : Rat) : Int × Int :=
  if stationType == "5-minute" then
    (⌊celsius * 9 / 5 + 32⌋, ⌊(celsius - 1 / 20) * 9 / 5 + 32⌋)
  else
    (pyRound (celsius * 9 / 5 + 32), pyRound (celsius * 9 / 5 + 32))

/-- The running-maximum update used throughout observations.py: replace
    when the slot is empty or the new value is strictly greater. -/
def optMax (old : Option Int) (val : Int) : Option Int :=
  match old with
  | none => some val
  | some m => if val > m then some val else some m

/-- The running-minimum update used by the LOW tracker. -/
def optMin (old : Option Int) (val : Int) : Option Int :=
  match old with
  | none => some val
  | some m => if val < m then some val else some m

/-- The loop state of get_current_running_high (observations.py lines 123
    to 126). -/
structure HighState where
  maxObserved : Option Int
  probableMax : Option Int
  dsmHigh : Option Int
  validCount : Nat
deriving DecidableEq

/-- observations.py lines 128 to 190: one iteration of the running-high
    loop. The DSM field updates the DSM maximum; a reading without a
    temperature value contributes nothing else; otherwise the conservative
    and probable maxima are updated and the valid count advances. -/
def highStep (stationType : String) (s : HighState) (r : ObsReading) : HighState :=
  let s1 :=
    match r.dsm with
    | some dsmC => { s with dsmHigh := optMax s.dsmHigh ⌊dsmC * 9 / 5 + 32⌋ }
    | none => s
  match r.temperature with
  | none => s1
  | some raw =>
    let cu := highConvert stationType (toCelsius raw r.unit_degF)
    { s1 with
      maxObserved := optMax s1.maxObserved cu.1,
      probableMax := optMax s1.probableMax cu.2,
      validCount := s1.validCount + 1 }

/-- observations.py lines 192 to 201: fold the DSM high into the computed
    maxima — it may raise either value, never lower them. -/
def incorporateDsm (mo pm dsmHigh : Option Int) : Option Int × Option Int :=
  match dsmHigh with
  | none => (mo, pm)
  | some d => (optMax mo d, optMax pm d)

/-- The success payload of get_current_running_high. -/
structure RunningHighResult where
  max_observed : Int
  probable_max : Int
  obs_count : Nat
deriving DecidableEq

/-- observations.py lines 123 to 190: the whole running-high loop over the
    feed, from the all-empty initial state. -/
def runningHighLoop (stationType : String) (features : List ObsReading) : HighState :=
  features.foldl (highStep stationType) ⟨none, none, none, 0⟩

/-- observations.py lines 192 to 216: incorporate the DSM high into the
    final loop state and build the result, or report unavailable when no
    maximum was established. -/
def finishHigh (s : HighState) : Option RunningHighResult :=
  match incorporateDsm s.maxObserved s.probableMax s.dsmHigh with
  | (some m, some p) => some ⟨m, p, s.validCount⟩
  | _ => none

/-- observations.py get_current_running_high (lines 109 to 216), network
    fetch abstracted to the list of returned features: empty feeds report
    unavailable; otherwise the loop runs, the DSM high is incorporated, and
    the result is unavailable only when no maximum was established. -/
def getCurrentRunningHigh (stationType : String) (features : List ObsReading) :
    Option RunningHighResult :=
  if features.isEmpty then none
  else finishHigh (runningHighLoop stationType features)

/-- The loop state of get_current_running_low (observations.py lines 313
    to 315). -/
structure LowState where
  minObserved : Option Int
  probableMin : Option Int
  validCount : Nat
deriving DecidableEq

/-- observations.py lines 317 to 361: one iteration of the running-low
    loop. There is no DSM branch — the field is never read. -/
def lowStep (stationType : String) (s : LowState) (r : ObsReading) : LowState :=
  match r.temperature with
  | none => s
  | some raw =>
    let cl := lowConvert stationType (toCelsius raw r.unit_degF)
    { minObserved := optMin s.minObserved cl.1,
      probableMin := optMin s.probableMin cl.2,
      validCount := s.validCount + 1 }

/-- The success payload of get_current_running_low. -/
structure RunningLowResult where
  min_observed : Int
  probable_min : Int
  obs_count : Nat
deriving DecidableEq

/-- observations.py lines 317 to 361: the whole running-low loop over the
    feed, from the all-empty initial state. -/
def runningLowLoop (stationType : String) (features : List ObsReading) : LowState :=
  features.foldl (lowStep stationType) ⟨none, none, 0⟩

/-- observations.py lines 363 to 376: build the running-low result, or
    report unavailable when no minimum was established. -/
def finishLow (s : LowState) : Option RunningLowResult :=
  match s.minObserved, s.probableMin with
  | some m, some p => some ⟨m, p, s.validCount⟩
  | _, _ => none

/-- observations.py get_current_running_low (lines 299 to 376), network
    fetch abstracted to the list of returned features. -/
def getCurrentRunningLow (stationType : String) (features : List ObsReading) :
    Option RunningLowResult :=
  if features.isEmpty then none
  else finishLow (runningLowLoop stationType features)

/-- Erase the DSM field of a reading (used to state that the LOW tracker
    never reads it). -/
def eraseDsm (r : ObsReading) : ObsReading :=
  { r with dsm := none }

/-- A paper position, the value stored in _PAPER_POSITIONS by
    check_paper_entries (paper_trading.py lines 78 to 94). -/
structure PaperPosition where
  entry_time : String
  city : String
  market_type : String
  bucket_label : String
  ticker : String
  direction : String
  entry_price : Int
  gap_at_entry : Int
  spread_at_entry : Option Int
  std_dev_at_entry : Rat
  time_decay_at_entry : Rat
  nws_prob_at_entry : Int
  forecast_temp_at_entry : Int
  consensus_at_entry : Option Int
  hourly_adjusted_at_entry : Bool
deriving DecidableEq

/-- paper_trading.py lines 78 to 94: the entry snapshot recorded for an
    admitted Gap Result. -/
def mkPaperPosition (now city : String) (g : GapResult) (md : ModelData) : PaperPosition :=
  { entry_time := now
    city := city
    market_type := g.series_type
    bucket_label := g.bucket_label
    ticker := g.ticker
    direction := g.edge
    entry_price := g.kalshi_prob
    gap_at_entry := g.gap
    spread_at_entry := md.spread
    std_dev_at_entry := g.std_dev_used
    time_decay_at_entry := g.time_decay_multiplier
    nws_prob_at_entry := g.nws_prob
    forecast_temp_at_entry := g.forecast_temp
    consensus_at_entry := md.consensus
    hourly_adjusted_at_entry := g.hourly_adjusted }

/-- paper_trading.py lines 56 to 94 (check_paper_entries, one gap result):
    skip when the ticker already has an open position, when the model data
    is insufficient, or when the quality gate rejects; otherwise record the
    position. The position table is embedded as an association list. -/
def checkPaperEntryStep (now city : String) (table : List (String × PaperPosition))
    (g : GapResult) (md : ModelData) : List (String × PaperPosition) :=
  if (table.lookup g.ticker).isSome then table
  else if !md.has_enough_data then table
  else if !passesPaperTradeFilters g md then table
  else (g.ticker, mkPaperPosition now city g md) :: table

/-- A concrete Gap Result quoted at exactly 10 (so was_settled is false per
    the source computation), with a 20-point gap and an in-range consensus. -/
def c2g : GapResult :=
  { ticker := "KXHIGHNY-26FEB18-B51", series_type := "HIGH", bucket_type := "RANGE"
    bucket_label := "51", floor := some 50, cap := some 52, kalshi_prob := 10
    nws_prob := 30, gap := 20, edge := "BUY YES", confidence := "LOW"
    was_settled := false, std_dev_used := 5 / 2, time_decay_multiplier := 1
    forecast_temp := 51, hourly_adjusted := false }

/-- Model data with tight spread and in-range consensus for c2g. -/
def c2md : ModelData := { spread := some 1, consensus := some 51, has_enough_data := true }

/-- A concrete Gap Result passing every rule except (possibly) the spread
    rule: not settled, 20-point gap, in-range consensus. -/
def c1g : GapResult :=
  { ticker := "KXHIGHCHI-26FEB18-B51", series_type := "HIGH", bucket_type := "RANGE"
    bucket_label := "51", floor := some 50, cap := some 52, kalshi_prob := 40
    nws_prob := 60, gap := 20, edge := "BUY YES", confidence := "LOW"
    was_settled := false, std_dev_used := 5 / 2, time_decay_multiplier := 1
    forecast_temp := 51, hourly_adjusted := false }

/-- Model data with spread 5: at least 4 but below 8, separating the two
    email-filter copies. -/
def c1md : ModelData := { spread := some 5, consensus := some 51, has_enough_data := true }

/-- Model data with spread 9: excluded by every copy of the gate. -/
def c1mdWide : ModelData := { spread := some 9, consensus := some 51, has_enough_data := true }

/-- Model data with spread 3 and no consensus: admitted by the paper gate
    when the gap and settlement rules pass. -/
def c1mdNarrow : ModelData := { spread := some 3, consensus := none, has_enough_data := true }

/-- Model data admitting c1g through the paper-trade gate (spread 2). -/
def c9md : ModelData := { spread := some 2, consensus := some 51, has_enough_data := true }

end WeatherBot

open WeatherBot

/-- Claim C10: with MIN_GAP_TO_SHOW equal to 0 nothing is dropped at step 5,
    the emitted gap is the rounded model probability minus the quoted price,
    the direction is BUY YES exactly when that gap is strictly positive, and
    a zero gap is assigned BUY NO; the bot copy of step 5 agrees with the
    analysis module copy. -/
theorem c10_zero_gap_direction : ∀ nws_prob kalshi_prob : Int,
    gapEdgeStep nws_prob kalshi_prob
      = some (nws_prob - kalshi_prob,
          if nws_prob - kalshi_prob > 0 then "BUY YES" else "BUY NO")
    ∧ botGapEdgeStep nws_prob kalshi_prob = gapEdgeStep nws_prob kalshi_prob
    ∧ gapEdgeStep nws_prob nws_prob = some (0, "BUY NO") := by
  intro np kp
  refine ⟨?_, rfl, ?_⟩
  · simp only [gapEdgeStep, MIN_GAP_TO_SHOW]
    rw [if_neg (not_lt.mpr (abs_nonneg _))]
  · simp [gapEdgeStep, MIN_GAP_TO_SHOW]

/-- Claim C5: the per-resolution profit and loss. BUY YES pays 100 minus the
    entry price on yes and loses the entry price on no; BUY NO pays the
    entry price on no and loses 100 minus the entry price on yes; and on a
    yes or no result the historical scorer formula in resolve.py agrees
    with the live paper resolver for every direction string. -/
theorem c5_pnl_formulas : ∀ (p : Int) (direction : String),
    0 ≤ p → p ≤ 100 →
    resolvePaperStep "yes" "BUY YES" p = some (100 - p)
    ∧ resolvePaperStep "no" "BUY YES" p = some (-p)
    ∧ resolvePaperStep "no" "BUY NO" p = some p
    ∧ resolvePaperStep "yes" "BUY NO" p = some (-(100 - p))
    ∧ resolvePnl "yes" direction (p : Rat) = (((resolvePaperStep "yes" direction p).getD 0 : Int) : Rat)
    ∧ resolvePnl "no" direction (p : Rat) = (((resolvePaperStep "no" direction p).getD 0 : Int) : Rat) := by
  intro p direction _ _
  refine ⟨by simp [resolvePaperStep], by simp [resolvePaperStep], by simp [resolvePaperStep],
    by simp [resolvePaperStep], ?_, ?_⟩
  · by_cases hd : (direction == "BUY YES") = true
    · simp [resolvePaperStep, resolvePnl, hd]
    · simp [resolvePaperStep, resolvePnl, hd]
  · by_cases hd : (direction == "BUY YES") = true
    · simp [resolvePaperStep, resolvePnl, hd]
    · simp [resolvePaperStep, resolvePnl, hd]

/-- Witness for C5 at the worked example of the spec, entry price 22. -/
theorem c5_pnl_witness :
    resolvePaperStep "yes" "BUY YES" 22 = some (100 - 22)
    ∧ resolvePaperStep "no" "BUY NO" 22 = some 22 := by
  have h := c5_pnl_formulas 22 "BUY NO" (by decide) (by decide)
  exact ⟨h.1, h.2.2.1⟩

/-- Claim C3: evaluation of both resolution paths at a voided market. The
    live paper resolver keeps the position open (none), and the historical
    fetch_market_result of the scorer maps void and voided to none so the row is
    skipped — the pnl-zero branch for void in run_resolution_check is
    unreachable, although that branch, taken in isolation, does return 0. -/
theorem c3_void_market_never_resolved :
    resolvePaperStep "void" "BUY YES" 22 = none
    ∧ resolvePaperStep "voided" "BUY NO" 22 = none
    ∧ fetchMarketResult "void" false = (none, false)
    ∧ fetchMarketResult "voided" true = (none, false)
    ∧ fetchMarketResult "" false = (none, false)
    ∧ resolvePnl "void" "BUY YES" 22 = 0 := by
  refine ⟨by decide, by decide, by decide, by decide, by decide, by decide⟩

/-- Counterexample for C1: at spread 5 (with every other rule passing) the
    live email filter in bot.py excludes the market while the paper-trade
    filter admits it, so the two call sites diverge. -/
theorem c1_gate_divergence_counterexample :
    botApplyEmailFilters c1g c1md = false
    ∧ passesPaperTradeFilters c1g c1md = true
    ∧ c1md.spread = some 5 := by
  refine ⟨by decide, by decide, rfl⟩

/-- Claim C1 (amended): the alerts-module email filter and the paper-trade
    filter agree on every input and exclude whenever the computable spread
    is at least 8 (and, with the other rules passing and no consensus, admit
    below 8); the bot-module email filter at the live alerting call site
    instead excludes whenever the computable spread is at least 4, so the
    alerting and paper-trade decisions diverge for spreads in [4, 8). -/
theorem c1_gate_amended : ∀ (g : GapResult) (md : ModelData),
    alertsApplyEmailFilters g md = passesPaperTradeFilters g md
    ∧ (∀ s : Int, md.spread = some s → 8 ≤ s →
        passesPaperTradeFilters g md = false ∧ alertsApplyEmailFilters g md = false)
    ∧ (∀ s : Int, md.spread = some s → 4 ≤ s → botApplyEmailFilters g md = false)
    ∧ (∀ s : Int, md.spread = some s → s < 8 → md.consensus = none →
        g.was_settled = false → 15 ≤ |g.gap| → passesPaperTradeFilters g md = true) := by
  intro g md
  refine ⟨rfl, ?_, ?_, ?_⟩
  · intro s hs h8
    constructor
    · simp only [passesPaperTradeFilters, hs]
      rw [decide_eq_true h8]
      split_ifs with h1 h2 h3 <;> first | rfl | exact absurd rfl h3
    · simp only [alertsApplyEmailFilters, hs]
      rw [decide_eq_true h8]
      split_ifs with h1 h2 h3 <;> first | rfl | exact absurd rfl h3
  · intro s hs h4
    simp only [botApplyEmailFilters, hs]
    rw [decide_eq_true h4]
    split_ifs with h1 h2 h3 <;> first | rfl | exact absurd rfl h3
  · intro s hs h8 hc hw hgap
    simp only [passesPaperTradeFilters, hs, hc, hw]
    rw [decide_eq_false (not_le.mpr h8), if_neg (not_lt.mpr hgap)]
    simp

/-- Witness for C1 (amended) at concrete inputs: spread 9 is excluded by
    both module-copy gates, spread 9 and spread 5 are excluded by the bot
    email filter, and spread 3 with no consensus is admitted by the
    paper-trade gate. -/
theorem c1_gate_witness :
    passesPaperTradeFilters c1g c1mdWide = false
    ∧ alertsApplyEmailFilters c1g c1mdWide = false
    ∧ botApplyEmailFilters c1g c1md = false
    ∧ passesPaperTradeFilters c1g c1mdNarrow = true := by
  refine ⟨?_, ?_, ?_, ?_⟩
  · exact ((c1_gate_amended c1g c1mdWide).2.1 9 rfl (by decide)).1
  · exact ((c1_gate_amended c1g c1mdWide).2.1 9 rfl (by decide)).2
  · exact (c1_gate_amended c1g c1md).2.2.1 5 rfl (by decide)
  · exact (c1_gate_amended c1g c1mdNarrow).2.2.2 3 rfl (by decide) rfl (by decide) (by decide)

/-- Counterexample for C2: a market quoted at exactly 10 has was_settled
    false under the source computation and is admitted by all three copies
    of the gate, so exact-boundary quotes are not excluded. -/
theorem c2_boundary_counterexample :
    wasSettled 10 = false
    ∧ wasSettled 90 = false
    ∧ c2g.kalshi_prob = 10
    ∧ c2g.was_settled = wasSettled c2g.kalshi_prob
    ∧ passesPaperTradeFilters c2g c2md = true
    ∧ alertsApplyEmailFilters c2g c2md = true
    ∧ botApplyEmailFilters c2g c2md = true := by
  refine ⟨by decide, by decide, rfl, by decide, by decide, by decide, by decide⟩

/-- Claim C2 (amended): rule 1 rejects quoted probabilities strictly below
    10 or strictly above 90. For every Gap Result whose was_settled field
    is derived from the quoted probability as in the source, admission by
    any copy of the gate implies 10 ≤ quoted ≤ 90 — boundary quotes of
    exactly 10 or 90 pass rule 1. -/
theorem c2_rule1_amended : ∀ (g : GapResult) (md : ModelData),
    g.was_settled = wasSettled g.kalshi_prob →
    (botApplyEmailFilters g md = true ∨ alertsApplyEmailFilters g md = true
      ∨ passesPaperTradeFilters g md = true) →
    10 ≤ g.kalshi_prob ∧ g.kalshi_prob ≤ 90 := by
  intro g md hws hadm
  cases hb : g.was_settled with
  | false =>
    rw [hb, wasSettled] at hws
    have hnot := of_decide_eq_false hws.symm
    push_neg at hnot
    omega
  | true =>
    exfalso
    rcases hadm with h | h | h
    · rw [botApplyEmailFilters, if_pos hb] at h
      exact Bool.false_ne_true h
    · rw [alertsApplyEmailFilters, if_pos hb] at h
      exact Bool.false_ne_true h
    · rw [passesPaperTradeFilters, if_pos hb] at h
      exact Bool.false_ne_true h

/-- Witness for C2 (amended) at the boundary market quoted exactly 10. -/
theorem c2_rule1_witness : 10 ≤ c2g.kalshi_prob ∧ c2g.kalshi_prob ≤ 90 :=
  c2_rule1_amended c2g c2md (by decide) (Or.inr (Or.inr (by decide)))

/-- Counterexample for C4: at local-standard hour 18 for a today LOW market
    with an observation, the analysis module copy widens back to 1.0 but
    the live bot copy applies 3 / 10, so the two copies do not share the
    claimed schedule. -/
theorem c4_low_decay_counterexample :
    timeDecayMultiplierBot "today" "LOW" (some 40) 18 = 3 / 10
    ∧ timeDecayMultiplierAnalysis "today" "LOW" (some 40) 18 = 1
    ∧ timeDecayMultiplierBot "today" "LOW" (some 40) 18
        ≠ timeDecayMultiplierAnalysis "today" "LOW" (some 40) 18 := by
  have hB : timeDecayMultiplierBot "today" "LOW" (some 40) 18 = 3 / 10 := by
    simp [timeDecayMultiplierBot, lowDecayScheduleBot]
  have hA : timeDecayMultiplierAnalysis "today" "LOW" (some 40) 18 = 1 := by
    simp [timeDecayMultiplierAnalysis, lowDecayScheduleAnalysis]
  refine ⟨hB, hA, by rw [hA, hB]; norm_num⟩

/-- Claim C4 (amended): for a today LOW market with a running observation,
    the analysis module copy follows the claimed schedule (hour at least 18
    gives 1.0, at least 12 gives 3 / 10, at least 8 gives 1 / 2, at least 4
    gives 3 / 4, earlier gives 1.0); the live bot copy agrees below hour 18
    but omits the widen-back branch, applying 3 / 10 for every hour from 18
    on. -/
theorem c4_low_decay_amended : ∀ (t : Int) (h : Nat),
    (18 ≤ h → timeDecayMultiplierAnalysis "today" "LOW" (some t) h = 1
      ∧ timeDecayMultiplierBot "today" "LOW" (some t) h = 3 / 10)
    ∧ (12 ≤ h → h < 18 → timeDecayMultiplierAnalysis "today" "LOW" (some t) h = 3 / 10
      ∧ timeDecayMultiplierBot "today" "LOW" (some t) h = 3 / 10)
    ∧ (8 ≤ h → h < 12 → timeDecayMultiplierAnalysis "today" "LOW" (some t) h = 1 / 2
      ∧ timeDecayMultiplierBot "today" "LOW" (some t) h = 1 / 2)
    ∧ (4 ≤ h → h < 8 → timeDecayMultiplierAnalysis "today" "LOW" (some t) h = 3 / 4
      ∧ timeDecayMultiplierBot "today" "LOW" (some t) h = 3 / 4)
    ∧ (h < 4 → timeDecayMultiplierAnalysis "today" "LOW" (some t) h = 1
      ∧ timeDecayMultiplierBot "today" "LOW" (some t) h = 1) := by
  intro t h
  have hA : timeDecayMultiplierAnalysis "today" "LOW" (some t) h = lowDecayScheduleAnalysis h := by
    simp [timeDecayMultiplierAnalysis]
  have hB : timeDecayMultiplierBot "today" "LOW" (some t) h = lowDecayScheduleBot h := by
    simp [timeDecayMultiplierBot]
  rw [hA, hB]
  unfold lowDecayScheduleAnalysis lowDecayScheduleBot
  refine ⟨fun h18 => ?_, fun h12 h18 => ?_, fun h8 h12 => ?_, fun h4 h8 => ?_, fun h4 => ?_⟩ <;>
    constructor <;> (split_ifs <;> first | rfl | omega)

/-- Witness for C4 (amended) at hours 18, 9 and 2. -/
theorem c4_low_decay_witness :
    timeDecayMultiplierAnalysis "today" "LOW" (some 40) 18 = 1
    ∧ timeDecayMultiplierBot "today" "LOW" (some 40) 18 = 3 / 10
    ∧ timeDecayMultiplierAnalysis "today" "LOW" (some 40) 9 = 1 / 2
    ∧ timeDecayMultiplierBot "today" "LOW" (some 40) 2 = 1 := by
  refine ⟨((c4_low_decay_amended 40 18).1 (by omega)).1,
    ((c4_low_decay_amended 40 18).1 (by omega)).2,
    ((c4_low_decay_amended 40 9).2.2.1 (by omega) (by omega)).1,
    ((c4_low_decay_amended 40 2).2.2.2.2 (by omega)).2⟩

/-- Claim C6: after the baseline spread selection, the time-decay clamp and
    the hourly corroboration clamp, the recorded std_dev_used is at least
    1.0 for every input, in the analysis module copy and in the live bot
    copy alike. -/
theorem c6_sigma_never_below_one : ∀ (validTemps : List Int) (dateLabel seriesType : String)
    (observedRunning : Option Int) (lstHour : Nat) (hasHourly : Bool) (remaining : Option Int),
    1 ≤ stdDevUsedAnalysis validTemps dateLabel seriesType observedRunning lstHour hasHourly remaining
    ∧ 1 ≤ stdDevUsedBot validTemps dateLabel seriesType observedRunning lstHour hasHourly remaining := by
  intro vt dl st obs h hh rem
  have hb : 1 ≤ baselineSigma vt := by
    unfold baselineSigma
    split_ifs
    · cases hsp : spreadOf vt with
      | none => norm_num
      | some s => simp only [hsp]; split_ifs <;> norm_num
    · norm_num
  have hA : 1 ≤ sigmaAfterDecayAnalysis vt dl st obs h := by
    unfold sigmaAfterDecayAnalysis
    split_ifs
    · exact le_max_right _ _
    · exact le_max_right _ _
    · exact hb
  have hB : 1 ≤ sigmaAfterDecayBot vt dl st obs h := by
    unfold sigmaAfterDecayBot
    split_ifs
    · exact le_max_right _ _
    · exact le_max_right _ _
    · exact hb
  constructor
  · unfold stdDevUsedAnalysis
    split_ifs
    · exact le_max_right _ _
    · exact hA
  · unfold stdDevUsedBot
    split_ifs
    · exact le_max_right _ _
    · exact hB

/-- Claim C9: at most one open paper position per market identifier. When a
    ticker already has an open position, the entry checker returns the
    position table unchanged (a total-function no-op, so the existing
    snapshot is untouched and nothing is raised); and when an admitted
    identifier arrives on an empty table, exactly one position is created,
    after which a second cycle presenting the same admitted identifier
    leaves the table identical. -/
theorem c9_at_most_one_position : ∀ (now now2 city : String)
    (table : List (String × PaperPosition)) (g : GapResult) (md : ModelData)
    (p : PaperPosition),
    (table.lookup g.ticker = some p → checkPaperEntryStep now city table g md = table)
    ∧ (md.has_enough_data = true → passesPaperTradeFilters g md = true →
        (checkPaperEntryStep now city [] g md).length = 1
        ∧ (checkPaperEntryStep now city [] g md).lookup g.ticker
            = some (mkPaperPosition now city g md)
        ∧ checkPaperEntryStep now2 city (checkPaperEntryStep now city [] g md) g md
            = checkPaperEntryStep now city [] g md) := by
  intro now now2 city table g md p
  constructor
  · intro hl
    unfold checkPaperEntryStep
    rw [hl]
    rfl
  · intro hd hf
    have hstep : checkPaperEntryStep now city [] g md
        = [(g.ticker, mkPaperPosition now city g md)] := by
      unfold checkPaperEntryStep
      rw [hd, hf]
      rfl
    refine ⟨by rw [hstep]; rfl, ?_, ?_⟩
    · rw [hstep]
      simp [List.lookup]
    · rw [hstep]
      unfold checkPaperEntryStep
      simp [List.lookup]

/-- Witness for C9: a concrete admitted market is entered once on an empty
    table, and a second cycle presenting the same ticker is a no-op. -/
theorem c9_witness :
    checkPaperEntryStep "cycle2" "Chicago"
        [(c1g.ticker, mkPaperPosition "cycle1" "Chicago" c1g c9md)] c1g c9md
      = [(c1g.ticker, mkPaperPosition "cycle1" "Chicago" c1g c9md)]
    ∧ (checkPaperEntryStep "cycle1" "Chicago" [] c1g c9md).length = 1 := by
  constructor
  · exact (c9_at_most_one_position "cycle2" "x" "Chicago" _ c1g c9md
      (mkPaperPosition "cycle1" "Chicago" c1g c9md)).1 (by simp [List.lookup])
  · exact ((c9_at_most_one_position "cycle1" "cycle2" "Chicago" [] c1g c9md
      (mkPaperPosition "cycle1" "Chicago" c1g c9md)).2 rfl (by decide)).1

theorem optMax_some_eq (m v : Int) : optMax (some m) v = some (max m v) := by
  show (if v > m then some v else some m) = some (max m v)
  split_ifs with h
  · rw [max_eq_right h.le]
  · rw [max_eq_left (not_lt.mp h)]

theorem optMin_some_eq (m v : Int) : optMin (some m) v = some (min m v) := by
  show (if v < m then some v else some m) = some (min m v)
  split_ifs with h
  · rw [min_eq_right h.le]
  · rw [min_eq_left (not_lt.mp h)]

theorem highConvert_le (st : String) (c : Rat) :
    (highConvert st c).1 ≤ (highConvert st c).2 := by
  unfold highConvert
  split_ifs with h
  · exact Int.floor_le_floor (by linarith)
  · exact le_refl _

theorem lowConvert_le (st : String) (c : Rat) :
    (lowConvert st c).2 ≤ (lowConvert st c).1 := by
  unfold lowConvert
  split_ifs with h
  · exact Int.floor_le_floor (by linarith)
  · exact le_refl _

theorem highStep_inv (st : String) (s : HighState) (r : ObsReading)
    (h : (s.maxObserved = none ∧ s.probableMax = none) ∨
      ∃ m p, s.maxObserved = some m ∧ s.probableMax = some p ∧ m ≤ p) :
    ((highStep st s r).maxObserved = none ∧ (highStep st s r).probableMax = none) ∨
      ∃ m p, (highStep st s r).maxObserved = some m
        ∧ (highStep st s r).probableMax = some p ∧ m ≤ p := by
  obtain ⟨t, u, d⟩ := r
  cases t with
  | none =>
    cases d with
    | none => exact h
    | some dc =>
      rcases h with ⟨h1, h2⟩ | ⟨m, p, h1, h2, h3⟩
      · exact Or.inl ⟨h1, h2⟩
      · exact Or.inr ⟨m, p, h1, h2, h3⟩
  | some raw =>
    have hcu := highConvert_le st (toCelsius raw u)
    have hmo : (highStep st s ⟨some raw, u, d⟩).maxObserved
        = optMax s.maxObserved (highConvert st (toCelsius raw u)).1 := by
      cases d <;> rfl
    have hpm : (highStep st s ⟨some raw, u, d⟩).probableMax
        = optMax s.probableMax (highConvert st (toCelsius raw u)).2 := by
      cases d <;> rfl
    rcases h with ⟨h1, h2⟩ | ⟨m, p, h1, h2, h3⟩
    · exact Or.inr ⟨(highConvert st (toCelsius raw u)).1,
        (highConvert st (toCelsius raw u)).2,
        by rw [hmo, h1]; rfl, by rw [hpm, h2]; rfl, hcu⟩
    · exact Or.inr ⟨max m (highConvert st (toCelsius raw u)).1,
        max p (highConvert st (toCelsius raw u)).2,
        by rw [hmo, h1, optMax_some_eq], by rw [hpm, h2, optMax_some_eq],
        max_le_max h3 hcu⟩

theorem foldl_highStep_inv (st : String) (l : List ObsReading) (s : HighState)
    (h : (s.maxObserved = none ∧ s.probableMax = none) ∨
      ∃ m p, s.maxObserved = some m ∧ s.probableMax = some p ∧ m ≤ p) :
    ((l.foldl (highStep st) s).maxObserved = none
        ∧ (l.foldl (highStep st) s).probableMax = none) ∨
      ∃ m p, (l.foldl (highStep st) s).maxObserved = some m
        ∧ (l.foldl (highStep st) s).probableMax = some p ∧ m ≤ p := by
  induction l generalizing s with
  | nil => exact h
  | cons r l ih =>
    simp only [List.foldl_cons]
    exact ih (highStep st s r) (highStep_inv st s r h)

theorem lowStep_inv (st : String) (s : LowState) (r : ObsReading)
    (h : (s.minObserved = none ∧ s.probableMin = none) ∨
      ∃ m p, s.minObserved = some m ∧ s.probableMin = some p ∧ p ≤ m) :
    ((lowStep st s r).minObserved = none ∧ (lowStep st s r).probableMin = none) ∨
      ∃ m p, (lowStep st s r).minObserved = some m
        ∧ (lowStep st s r).probableMin = some p ∧ p ≤ m := by
  obtain ⟨t, u, d⟩ := r
  cases t with
  | none => exact h
  | some raw =>
    have hcl := lowConvert_le st (toCelsius raw u)
    rcases h with ⟨h1, h2⟩ | ⟨m, p, h1, h2, h3⟩
    · exact Or.inr ⟨(lowConvert st (toCelsius raw u)).1,
        (lowConvert st (toCelsius raw u)).2,
        by rw [show (lowStep st s ⟨some raw, u, d⟩).minObserved
            = optMin s.minObserved (lowConvert st (toCelsius raw u)).1 from rfl, h1]; rfl,
        by rw [show (lowStep st s ⟨some raw, u, d⟩).probableMin
            = optMin s.probableMin (lowConvert st (toCelsius raw u)).2 from rfl, h2]; rfl,
        hcl⟩
    · exact Or.inr ⟨min m (lowConvert st (toCelsius raw u)).1,
        min p (lowConvert st (toCelsius raw u)).2,
        by rw [show (lowStep st s ⟨some raw, u, d⟩).minObserved
            = optMin s.minObserved (lowConvert st (toCelsius raw u)).1 from rfl, h1,
          optMin_some_eq],
        by rw [show (lowStep st s ⟨some raw, u, d⟩).probableMin
            = optMin s.probableMin (lowConvert st (toCelsius raw u)).2 from rfl, h2,
          optMin_some_eq],
        min_le_min h3 hcl⟩

theorem foldl_lowStep_inv (st : String) (l : List ObsReading) (s : LowState)
    (h : (s.minObserved = none ∧ s.probableMin = none) ∨
      ∃ m p, s.minObserved = some m ∧ s.probableMin = some p ∧ p ≤ m) :
    ((l.foldl (lowStep st) s).minObserved = none
        ∧ (l.foldl (lowStep st) s).probableMin = none) ∨
      ∃ m p, (l.foldl (lowStep st) s).minObserved = some m
        ∧ (l.foldl (lowStep st) s).probableMin = some p ∧ p ≤ m := by
  induction l generalizing s with
  | nil => exact h
  | cons r l ih =>
    simp only [List.foldl_cons]
    exact ih (lowStep st s r) (lowStep_inv st s r h)

theorem finishHigh_le (s : HighState)
    (h : (s.maxObserved = none ∧ s.probableMax = none) ∨
      ∃ m p, s.maxObserved = some m ∧ s.probableMax = some p ∧ m ≤ p)
    (r : RunningHighResult) (hres : finishHigh s = some r) :
    r.max_observed ≤ r.probable_max := by
  unfold finishHigh at hres
  cases hd : s.dsmHigh with
  | none =>
    rw [hd] at hres
    rcases h with ⟨h1, h2⟩ | ⟨m, p, h1, h2, h3⟩
    · rw [h1, h2] at hres
      exact absurd hres (by simp [incorporateDsm])
    · rw [h1, h2] at hres
      simp only [incorporateDsm] at hres
      cases hres
      exact h3
  | some d =>
    rw [hd] at hres
    rcases h with ⟨h1, h2⟩ | ⟨m, p, h1, h2, h3⟩
    · rw [h1, h2] at hres
      simp only [incorporateDsm, optMax] at hres
      cases hres
      exact le_refl _
    · rw [h1, h2] at hres
      simp only [incorporateDsm, optMax_some_eq] at hres
      cases hres
      exact max_le_max h3 (le_refl d)

theorem finishLow_le (s : LowState)
    (h : (s.minObserved = none ∧ s.probableMin = none) ∨
      ∃ m p, s.minObserved = some m ∧ s.probableMin = some p ∧ p ≤ m)
    (r : RunningLowResult) (hres : finishLow s = some r) :
    r.probable_min ≤ r.min_observed := by
  unfold finishLow at hres
  rcases h with ⟨h1, h2⟩ | ⟨m, p, h1, h2, h3⟩
  · rw [h1, h2] at hres
    exact absurd hres (by simp)
  · rw [h1, h2] at hres
    cases hres
    exact h3

theorem lowStep_eraseDsm (st : String) (s : LowState) (r : ObsReading) :
    lowStep st s (eraseDsm r) = lowStep st s r := by
  obtain ⟨t, u, d⟩ := r
  rfl

theorem runningLowLoop_eraseDsm (st : String) (l : List ObsReading) :
    ∀ s : LowState, l.foldl (lowStep st) s = (l.map eraseDsm).foldl (lowStep st) s := by
  induction l with
  | nil => intro s; rfl
  | cons r l ih =>
    intro s
    simp only [List.map_cons, List.foldl_cons, lowStep_eraseDsm]
    exact ih (lowStep st s r)

/-- Claim C7: in every non-unavailable tracker result the probable bound is
    at least as extreme as the conservative value (probable max at least
    the observed max; probable min at most the observed min); the DSM
    incorporation step can only raise the established conservative and
    probable maxima (it replaces them by their max with the DSM value); and
    the minimum tracker has no DSM override at all — erasing every DSM
    field of a feed leaves its output unchanged. -/
theorem c7_tracker_invariants :
    (∀ (st : String) (feed : List ObsReading) (r : RunningHighResult),
        getCurrentRunningHigh st feed = some r → r.max_observed ≤ r.probable_max)
    ∧ (∀ (st : String) (feed : List ObsReading) (r : RunningLowResult),
        getCurrentRunningLow st feed = some r → r.probable_min ≤ r.min_observed)
    ∧ (∀ m p d : Int,
        incorporateDsm (some m) (some p) (some d) = (some (max m d), some (max p d)))
    ∧ (∀ (st : String) (feed : List ObsReading),
        getCurrentRunningLow st (feed.map eraseDsm) = getCurrentRunningLow st feed) := by
  refine ⟨?_, ?_, ?_, ?_⟩
  · intro st feed r hres
    unfold getCurrentRunningHigh at hres
    by_cases he : feed.isEmpty
    · rw [if_pos he] at hres
      exact absurd hres (by simp)
    · rw [if_neg he] at hres
      exact finishHigh_le (runningHighLoop st feed)
        (foldl_highStep_inv st feed ⟨none, none, none, 0⟩ (Or.inl ⟨rfl, rfl⟩)) r hres
  · intro st feed r hres
    unfold getCurrentRunningLow at hres
    by_cases he : feed.isEmpty
    · rw [if_pos he] at hres
      exact absurd hres (by simp)
    · rw [if_neg he] at hres
      exact finishLow_le (runningLowLoop st feed)
        (foldl_lowStep_inv st feed ⟨none, none, 0⟩ (Or.inl ⟨rfl, rfl⟩)) r hres
  · intro m p d
    simp only [incorporateDsm, optMax_some_eq]
  · intro st feed
    unfold getCurrentRunningLow runningLowLoop
    rw [← runningLowLoop_eraseDsm st feed]
    have hemp : (feed.map eraseDsm).isEmpty = feed.isEmpty := by
      cases feed <;> rfl
    rw [hemp]

/-- Witness for C7 at a one-reading five-minute feed (10.0 C): the high
    tracker reports conservative 50 with probable bound 50, the low tracker
    reports conservative 50 with probable bound 49, and both inequalities
    follow from the invariant theorem. -/
theorem c7_tracker_witness :
    getCurrentRunningHigh "5-minute" [⟨some 10, false, none⟩]
      = some ⟨50, 50, 1⟩
    ∧ (⟨50, 50, 1⟩ : RunningHighResult).max_observed
        ≤ (⟨50, 50, 1⟩ : RunningHighResult).probable_max
    ∧ getCurrentRunningLow "5-minute" [⟨some 10, false, none⟩]
      = some ⟨50, 49, 1⟩
    ∧ (⟨50, 49, 1⟩ : RunningLowResult).probable_min
        ≤ (⟨50, 49, 1⟩ : RunningLowResult).min_observed := by
  have hhigh : getCurrentRunningHigh "5-minute" [⟨some 10, false, none⟩]
      = some ⟨50, 50, 1⟩ := by
    unfold getCurrentRunningHigh runningHighLoop finishHigh highStep incorporateDsm
    norm_num [highConvert, toCelsius, optMax]
  have hlow : getCurrentRunningLow "5-minute" [⟨some 10, false, none⟩]
      = some ⟨50, 49, 1⟩ := by
    unfold getCurrentRunningLow runningLowLoop finishLow lowStep
    norm_num [lowConvert, toCelsius, optMin]
  refine ⟨hhigh, c7_tracker_invariants.1 "5-minute" _ _ hhigh,
    hlow, c7_tracker_invariants.2.1 "5-minute" _ _ hlow⟩

theorem lowStep_no_temp (st : String) (s : LowState) (r : ObsReading)
    (h : r.temperature = none) : lowStep st s r = s := by
  obtain ⟨t, u, d⟩ := r
  cases h
  rfl

theorem runningLowLoop_no_temp (st : String) (l : List ObsReading)
    (h : ∀ r ∈ l, r.temperature = none) :
    ∀ s : LowState, l.foldl (lowStep st) s = s := by
  induction l with
  | nil => intro s; rfl
  | cons r l ih =>
    intro s
    simp only [List.foldl_cons]
    rw [lowStep_no_temp st s r (h r (by simp))]
    exact ih (fun x hx => h x (by simp [hx])) s

theorem highStep_no_temp_no_dsm (st : String) (s : HighState) (r : ObsReading)
    (ht : r.temperature = none) (hd : r.dsm = none) : highStep st s r = s := by
  obtain ⟨t, u, d⟩ := r
  cases ht
  cases hd
  rfl

theorem runningHighLoop_no_temp_no_dsm (st : String) (l : List ObsReading)
    (h : ∀ r ∈ l, r.temperature = none) (h2 : ∀ r ∈ l, r.dsm = none) :
    ∀ s : HighState, l.foldl (highStep st) s = s := by
  induction l with
  | nil => intro s; rfl
  | cons r l ih =>
    intro s
    simp only [List.foldl_cons]
    rw [highStep_no_temp_no_dsm st s r (h r (by simp)) (h2 r (by simp))]
    exact ih (fun x hx => h x (by simp [hx])) (fun x hx => h2 x (by simp [hx])) s

/-- Counterexample for C8: a non-empty feed whose single reading has no
    per-reading temperature but carries a DSM value of 10 C. The high
    tracker does not report unavailable — it returns 50 for both the
    conservative and probable maximum with a valid-reading count of zero —
    while the low tracker reports unavailable. -/
theorem c8_dsm_only_counterexample :
    getCurrentRunningHigh "5-minute" [⟨none, false, some 10⟩]
      = some ⟨50, 50, 0⟩
    ∧ getCurrentRunningHigh "5-minute" [⟨none, false, some 10⟩] ≠ none
    ∧ (∀ r ∈ ([⟨none, false, some 10⟩] : List ObsReading), r.temperature = none)
    ∧ getCurrentRunningLow "5-minute" [⟨none, false, some 10⟩] = none := by
  have hh : getCurrentRunningHigh "5-minute" [⟨none, false, some 10⟩]
      = some ⟨50, 50, 0⟩ := by
    unfold getCurrentRunningHigh runningHighLoop finishHigh highStep incorporateDsm
    norm_num [optMax]
  refine ⟨hh, by rw [hh]; simp, by simp, ?_⟩
  · unfold getCurrentRunningLow runningLowLoop finishLow lowStep
    norm_num

/-- Claim C8 (amended): when no reading in the feed carries a usable
    per-reading temperature value, the running-low tracker always reports
    unavailable, and the running-high tracker reports unavailable provided
    no reading carries a DSM rolling-maximum field either; a DSM-only feed
    instead yields a high result built from the DSM value alone, with a
    valid-reading count of zero. -/
theorem c8_no_temp_unavailable : ∀ (st : String) (feed : List ObsReading),
    (∀ r ∈ feed, r.temperature = none) →
    getCurrentRunningLow st feed = none
    ∧ ((∀ r ∈ feed, r.dsm = none) → getCurrentRunningHigh st feed = none) := by
  intro st feed h
  constructor
  · unfold getCurrentRunningLow
    by_cases he : feed.isEmpty
    · rw [if_pos he]
    · rw [if_neg he]
      unfold runningLowLoop
      rw [runningLowLoop_no_temp st feed h]
      rfl
  · intro h2
    unfold getCurrentRunningHigh
    by_cases he : feed.isEmpty
    · rw [if_pos he]
    · rw [if_neg he]
      unfold runningHighLoop
      rw [runningHighLoop_no_temp_no_dsm st feed h h2]
      rfl

/-- Witness for C8 (amended) on a one-reading feed with neither a
    temperature value nor a DSM field: both trackers report unavailable. -/
theorem c8_no_temp_witness :
    getCurrentRunningLow "hourly" [⟨none, false, none⟩] = none
    ∧ getCurrentRunningHigh "hourly" [⟨none, false, none⟩] = none := by
  have h := c8_no_temp_unavailable "hourly" [⟨none, false, none⟩] (by simp)
  exact ⟨h.1, h.2 (by simp)⟩
